import Mathlib

/-!
Verification development for the request-processing core of the Kayak server
(`src/db/src/master.rs`).  The Rust code is shallowly embedded: byte strings
become `List Nat`, `std::collections::HashMap` becomes an association list
with insert-replace semantics, fallible operations return `Option`/`Except`,
and panics (`split_at` out of bounds, `String::from_utf8(..).expect(..)`)
become an explicit error value.  Collaborator code that is part of the
repository but not shown under `src/` (the storage table, the wire-format
header types, the extension manager, the packet buffer contract) is modelled
from the specification; each such definition carries a doc comment starting
with "Modelled from the spec:".
-/

set_option autoImplicit false

namespace Kayak

/-- Association-list lookup, modelling `HashMap::get`: returns the value
stored under the first matching key, if any. -/
def alGet {α β : Type} [DecidableEq α] (k : α) : List (α × β) → Option β
  | [] => none
  | (k', v) :: rest => if k' = k then some v else alGet k rest

/-- Association-list insert, modelling `HashMap::insert`: any previous
binding of the key is replaced. -/
def alPut {α β : Type} [DecidableEq α] (k : α) (v : β) (m : List (α × β)) :
    List (α × β) :=
  (k, v) :: m.filter (fun p => p.1 ≠ k)

/-- Status codes of the RPC wire format (`RpcStatus` in the wire-format
module; the constructor names appear verbatim in `master.rs`). -/
inductive RpcStatus
  | StatusOk
  | StatusMalformedRequest
  | StatusTenantDoesNotExist
  | StatusTableDoesNotExist
  | StatusObjectDoesNotExist
  | StatusInternalError
  deriving DecidableEq, Repr

/-- Opcodes of the RPC wire format (`OpCode`); the constructor names appear
verbatim in the dispatch match of `master.rs`. -/
inductive OpCode
  | SandstormGetRpc
  | SandstormInvokeRpc
  | InvalidOperation
  deriving DecidableEq, Repr

/-- Ways the handlers can panic instead of returning: an out-of-bounds
`split_at`, or the `expect` on UTF-8 decoding of the extension name. -/
inductive RpcPanic
  | sliceOob
  | utf8Fail
  deriving DecidableEq, Repr

/-- Observable effects of serving one request, recorded as a trace: the
tenant-registry lookup, the per-tenant table lookup, the key lookup in a
table, and a call into the extension manager. -/
inductive Event
  | tenantLookup (tenant : Nat)
  | tableLookup (table : Nat)
  | keyLookup (key : List Nat)
  | extCall (tenant : Nat) (name : List Nat)
  deriving DecidableEq, Repr

/-- Modelled from the spec: the per-table key/value store (`Table` lives in
`table.rs`, which is not under `src/`).  Contract (spec §4.1): `get(key) ->
Option<Value>`, `put(key, value)`, put overwrites an existing value for the
same key, keys compared by exact byte equality. -/
structure Table where
  kv : List (List Nat × List Nat)
  deriving DecidableEq, Repr

/-- Modelled from the spec: `Table::default()` creates an empty table. -/
def Table.default : Table := ⟨[]⟩

/-- Modelled from the spec: `get(key)` returns the stored value for the key
if present. -/
def Table.get (t : Table) (key : List Nat) : Option (List Nat) :=
  alGet key t.kv

/-- Modelled from the spec: `put(key, value)` stores the value under the
key, overwriting an existing value for the same key. -/
def Table.put (t : Table) (key value : List Nat) : Table :=
  ⟨alPut key value t.kv⟩

/-- Tenant record (`User` in `master.rs`): a tenant id together with the
map from table id to table. -/
structure User where
  id : Nat
  tables : List (Nat × Table)
  deriving DecidableEq, Repr

/-- Translation of `User::new`. -/
def User.new (id : Nat) : User := { id := id, tables := [] }

/-- Translation of `User::create_table`: builds one 130-byte buffer holding
30 bytes of value 1 followed by 100 bytes of value 91, splits off the first
30 bytes as the key, stores the pair in a fresh table, and inserts the table
under the given id. -/
def User.create_table (u : User) (table_id : Nat) : User :=
  let buffer : List Nat := List.replicate 30 1 ++ List.replicate 100 91
  let key : List Nat := buffer.take 30
  let value : List Nat := buffer.drop 30
  let table := Table.default.put key value
  { u with tables := alPut table_id table u.tables }

/-- Modelled from the spec: the extension manager (`ext.rs` is not under
`src/`).  Loading binds a (tenant, name) pair to a callable unit; the name
is kept as its UTF-8 bytes.  Invocation has no observable result in this
core (spec §4.3, §7: extension-internal failure is not observable); its
occurrence is recorded as a trace `Event.extCall` at the call site. -/
structure ExtensionManager where
  loaded : List (Nat × List Nat)
  deriving DecidableEq, Repr

/-- Modelled from the spec: a fresh manager with no extensions loaded. -/
def ExtensionManager.new : ExtensionManager := ⟨[]⟩

/-- Modelled from the spec: `load(path, tenant, name) -> Result<(), Error>`
binds the (tenant, name) pair to the unit of code found at the path.  The
model has no loader failures, so the result is always `ok`. -/
def ExtensionManager.load (em : ExtensionManager) (path : String)
    (tenant : Nat) (name : List Nat) : Except Unit ExtensionManager :=
  let _ := path
  Except.ok ⟨(tenant, name) :: em.loaded⟩

/-- Master service state (`Master` in `master.rs`): the tenant registry and
the extension manager. -/
structure Master where
  users : List (Nat × User)
  extensions : ExtensionManager
  deriving DecidableEq, Repr

/-- Translation of `Master::new`: provision user 1 with table 1, and load
the "get" extension (name bytes 103, 101, 116) for tenant 1; the `unwrap`
on the load result cannot fail in the model. -/
def Master.new : Master :=
  let user := (User.new 1).create_table 1
  let master : Master := { users := [], extensions := ExtensionManager.new }
  let master := { master with users := alPut user.id user master.users }
  match master.extensions.load "../ext/get/target/release/libget.so" 1
      [103, 101, 116] with
  | Except.ok em => { master with extensions := em }
  | Except.error _ => master

/-- Fields of the parsed Get request header read by the handler. -/
structure GetRequest where
  tenant : Nat
  table_id : Nat
  key_length : Nat
  deriving DecidableEq, Repr

/-- Response packet for a Get request, parsed up to its `GetResponse`
header: the two header fields the handler writes (`value_length`, the
common-header `status`) together with the response payload and the
capacity left for payload bytes (the wire-buffer contract allows the
append to fail when the buffer cannot hold the bytes, spec §4.4 step 7). -/
structure GetRespPkt where
  value_length : Nat
  status : RpcStatus
  payload : List Nat
  capacity : Nat
  deriving DecidableEq, Repr

/-- Modelled from the spec: `GetResponse::new()` initialises the response
header pushed by dispatch.  Length fields start at 0 (spec §3 invariant:
declared lengths equal bytes actually appended, and no bytes have been
appended yet).  The spec does not fix the initial status; `StatusOk` is
chosen, and the choice is unobservable because every path of the Get
handler overwrites the status. -/
def GetResponse.new : Nat × RpcStatus := (0, RpcStatus.StatusOk)

/-- Modelled from the spec: `add_to_payload_tail` of the wire-buffer
contract appends bytes at the end of the payload, failing (without
modifying the packet) when the buffer cannot hold them. -/
def add_to_payload_tail (p : GetRespPkt) (v : List Nat) : Option GetRespPkt :=
  if p.payload.length + v.length ≤ p.capacity then
    some { p with payload := p.payload ++ v }
  else
    none

/-- Translation of `slice::split_at`: total version returning `none`
exactly when the Rust call would panic (index beyond the length). -/
def splitAtChecked {α : Type} (n : Nat) (l : List α) :
    Option (List α × List α) :=
  if n ≤ l.length then some (l.take n, l.drop n) else none

/-- Translation of `Master::get`.  The request payload stands for
`request.get_payload()`.  The result carries the master state (the method
takes `&self` and cannot write it), the response packet, and the trace of
lookups performed; `Except.error RpcPanic.sliceOob` marks the panic branch
of `split_at`.  The `map_or_else` chain is translated step by step: note
that the first closure of `map_or_else` runs whenever the chained `Option`
is `none`, so each later failure closure overwrites the status set by an
earlier one. -/
def Master.get (m : Master) (req_hdr : GetRequest) (reqPayload : List Nat)
    (respons : GetRespPkt) :
    Except RpcPanic (Master × GetRespPkt × List Event) :=
  let tenant_id := req_hdr.tenant
  let table_id := req_hdr.table_id
  let key_length := req_hdr.key_length
  -- If the payload size is less than the key length, return an error.
  if reqPayload.length < key_length then
    Except.ok (m,
      { respons with status := RpcStatus.StatusMalformedRequest }, [])
  else
    -- Get a reference to the key.
    match splitAtChecked key_length reqPayload with
    | none => Except.error RpcPanic.sliceOob
    | some (key, _) =>
      let status := RpcStatus.StatusOk
      -- self.users.get(&tenant_id).map_or_else(set TenantDoesNotExist,
      --   look up the table)
      let step1 : Option Table × RpcStatus × List Event :=
        match alGet tenant_id m.users with
        | none => (none, RpcStatus.StatusTenantDoesNotExist,
                   [Event.tenantLookup tenant_id])
        | some user => (alGet table_id user.tables, status,
                        [Event.tenantLookup tenant_id,
                         Event.tableLookup table_id])
      let (o1, st1, tr1) := step1
      -- .map_or_else(set TableDoesNotExist, look up the key)
      let step2 : Option (List Nat) × RpcStatus × List Event :=
        match o1 with
        | none => (none, RpcStatus.StatusTableDoesNotExist, tr1)
        | some table => (table.get key, st1, tr1 ++ [Event.keyLookup key])
      let (o2, st2, tr2) := step2
      -- .map_or_else(set ObjectDoesNotExist, append the value and take
      --   the result with .ok())
      let step3 : Option Unit × GetRespPkt × RpcStatus × List Event :=
        match o2 with
        | none => (none, respons, RpcStatus.StatusObjectDoesNotExist, tr2)
        | some value =>
          match add_to_payload_tail respons value with
          | some r => (some (), r, st2, tr2)
          | none => (none, respons, st2, tr2)
      let (o3, resp3, st3, tr3) := step3
      -- .map_or_else(set InternalError, Some(()))
      let outcome : Option Unit × RpcStatus :=
        match o3 with
        | none => (none, RpcStatus.StatusInternalError)
        | some _ => (some (), st3)
      match outcome with
      | (some _, st4) =>
        -- Success: write the payload length (cast to u32) and the status.
        Except.ok (m,
          { resp3 with
              value_length := resp3.payload.length % 2 ^ 32,
              status := st4 }, tr3)
      | (none, st4) =>
        -- Failure: write only the status.
        Except.ok (m, { resp3 with status := st4 }, tr3)

/-- Modelled from the spec: validity range of a UTF-8 continuation byte. -/
def utf8Cont (c : Nat) : Bool :=
  0x80 ≤ c && c ≤ 0xBF

/-- Modelled from the spec: validity range of the second byte of a 3-byte
UTF-8 sequence, given the lead byte (excludes overlong encodings and
surrogate code points, as `String::from_utf8` does). -/
def utf8Cont3 (b c : Nat) : Bool :=
  if b = 0xE0 then 0xA0 ≤ c && c ≤ 0xBF
  else if b = 0xED then 0x80 ≤ c && c ≤ 0x9F
  else utf8Cont c

/-- Modelled from the spec: validity range of the second byte of a 4-byte
UTF-8 sequence, given the lead byte (excludes overlong encodings and code
points beyond U+10FFFF, as `String::from_utf8` does). -/
def utf8Cont4 (b c : Nat) : Bool :=
  if b = 0xF0 then 0x90 ≤ c && c ≤ 0xBF
  else if b = 0xF4 then 0x80 ≤ c && c ≤ 0x8F
  else utf8Cont c

/-- Modelled from the spec: the validity check performed by
`String::from_utf8` on the name bytes, over the byte list. -/
def validUtf8 : List Nat → Bool
  | [] => true
  | b :: rest =>
    if b ≤ 0x7F then validUtf8 rest
    else if b < 0xC2 then false
    else if b ≤ 0xDF then
      match rest with
      | c1 :: rest1 => utf8Cont c1 && validUtf8 rest1
      | [] => false
    else if b ≤ 0xEF then
      match rest with
      | c1 :: c2 :: rest2 => utf8Cont3 b c1 && utf8Cont c2 && validUtf8 rest2
      | _ => false
    else if b ≤ 0xF4 then
      match rest with
      | c1 :: c2 :: c3 :: rest3 =>
        utf8Cont4 b c1 && utf8Cont c2 && utf8Cont c3 && validUtf8 rest3
      | _ => false
    else false

/-- Fields of the parsed Invoke request header read by the handler. -/
structure InvokeRequest where
  tenant : Nat
  name_length : Nat
  args_length : Nat
  deriving DecidableEq, Repr

/-- Response packet for an Invoke request, parsed up to its
`InvokeResponse` header: the common-header status plus the (untouched)
response payload. -/
structure InvokeRespPkt where
  status : RpcStatus
  payload : List Nat
  deriving DecidableEq, Repr

/-- Modelled from the spec: `InvokeResponse::new()` initialises the
response header pushed by dispatch.  The spec does not fix the initial
status; `StatusOk` is chosen, and the choice is unobservable because every
non-panicking path of the Invoke handler overwrites the status. -/
def InvokeResponse.new : RpcStatus := RpcStatus.StatusOk

/-- Translation of `Master::invoke`.  The request payload stands for
`request.get_payload()`.  The result carries the master state (the method
takes `&self`), the response packet and the trace; `Except.error` marks the
two panic branches: `split_at` out of bounds, and the `expect` on UTF-8
decoding of the name.  Note that the name is decoded before the tenant
check, and that the argument bytes are parsed but never forwarded. -/
def Master.invoke (m : Master) (req_hdr : InvokeRequest)
    (reqPayload : List Nat) (respons : InvokeRespPkt) :
    Except RpcPanic (Master × InvokeRespPkt × List Event) :=
  let tenant_id := req_hdr.tenant
  let name_length := req_hdr.name_length
  let args_length := req_hdr.args_length
  -- If the payload size is less than the sum of the name and args length,
  -- return an error.
  if reqPayload.length < name_length + args_length then
    Except.ok (m,
      { respons with status := RpcStatus.StatusMalformedRequest }, [])
  else
    -- Read the name from the request payload.
    match splitAtChecked name_length reqPayload with
    | none => Except.error RpcPanic.sliceOob
    | some (raw_name, _) =>
      -- String::from_utf8(raw_name.to_vec()).expect(..)
      if validUtf8 raw_name then
        -- Check if the request was issued by a valid tenant.
        match alGet tenant_id m.users with
        | none =>
          Except.ok (m,
            { respons with status := RpcStatus.StatusTenantDoesNotExist },
            [Event.tenantLookup tenant_id])
        | some _ =>
          -- Run the extension with a null db interface, then set StatusOk.
          Except.ok (m, { respons with status := RpcStatus.StatusOk },
            [Event.tenantLookup tenant_id, Event.extCall tenant_id raw_name])
      else
        Except.error RpcPanic.utf8Fail

/-- Shape of the request buffer at the transport-header boundary: which
RPC-kind-specific header its bytes parse to (carrying the header fields the
handlers read), or no recognised kind. -/
inductive ReqKind
  | getReq (hdr : GetRequest)
  | invokeReq (hdr : InvokeRequest)
  | invalid
  deriving DecidableEq, Repr

/-- Request packet parsed up to its UDP header: the RPC-kind view of the
header bytes that follow, and the request payload. -/
structure UdpReq where
  kind : ReqKind
  payload : List Nat
  deriving DecidableEq, Repr

/-- Headers that dispatch can push onto the response packet, with the field
values they hold when the buffer is deparsed back to the UDP boundary. -/
inductive PushedHdr
  | getHdr (value_length : Nat) (status : RpcStatus)
  | invokeHdr (status : RpcStatus)
  deriving DecidableEq, Repr

/-- Response packet at the transport-header boundary: the stack of response
headers pushed past UDP (empty as received from the driver), the payload
bytes, and the remaining payload capacity. -/
structure UdpResp where
  pushed : List PushedHdr
  payload : List Nat
  capacity : Nat
  deriving DecidableEq, Repr

/-- Translation of `parse_rpc_opcode` (its body is in `rpc.rs`, not under
`src/`; the spec describes it as reading the opcode discriminant from the
common header, which in this model is determined by the kind the request
bytes parse to). -/
def parse_rpc_opcode (request : UdpReq) : OpCode :=
  match request.kind with
  | ReqKind.getReq _ => OpCode.SandstormGetRpc
  | ReqKind.invokeReq _ => OpCode.SandstormInvokeRpc
  | ReqKind.invalid => OpCode.InvalidOperation

/-- Result of a dispatch call: the master state, the two packets deparsed
back to the UDP boundary, and the trace of lookups and extension calls. -/
structure DispatchResult where
  master : Master
  request : UdpReq
  respons : UdpResp
  trace : List Event
  deriving DecidableEq, Repr

/-- Translation of `Service::dispatch` for `Master`: switch on the opcode;
for Get and Invoke, parse the request header, push a fresh response header,
run the handler, and deparse both packets back to the UDP boundary; for an
unrecognised opcode, return both packets unmodified (no response header is
pushed). -/
def Master.dispatch (m : Master) (request : UdpReq) (respons : UdpResp) :
    Except RpcPanic DispatchResult :=
  match request.kind with
  | ReqKind.getReq req_hdr =>
    -- push_header(GetResponse::new())
    let hdr := GetResponse.new
    let resp : GetRespPkt :=
      { value_length := hdr.1, status := hdr.2,
        payload := respons.payload, capacity := respons.capacity }
    match m.get req_hdr request.payload resp with
    | Except.error e => Except.error e
    | Except.ok (mOut, respOut, trace) =>
      -- deparse_header back to the UDP boundary on both packets
      Except.ok
        { master := mOut, request := request,
          respons :=
            { pushed := PushedHdr.getHdr respOut.value_length respOut.status
                :: respons.pushed,
              payload := respOut.payload, capacity := respOut.capacity },
          trace := trace }
  | ReqKind.invokeReq req_hdr =>
    -- push_header(InvokeResponse::new())
    let resp : InvokeRespPkt :=
      { status := InvokeResponse.new, payload := respons.payload }
    match m.invoke req_hdr request.payload resp with
    | Except.error e => Except.error e
    | Except.ok (mOut, respOut, trace) =>
      Except.ok
        { master := mOut, request := request,
          respons :=
            { pushed := PushedHdr.invokeHdr respOut.status :: respons.pushed,
              payload := respOut.payload, capacity := respons.capacity },
          trace := trace }
  | ReqKind.invalid =>
    -- Unrecognised opcode: hand both packets back untouched.
    Except.ok
      { master := m, request := request, respons := respons, trace := [] }

/-- Exhaustive shape analysis of the Get handler: every run returns `ok`
(the slicing panic is unreachable), and the result is the malformed-request
reply with an empty trace, an internal-error reply that changes only the
status, or a success reply whose packet comes out of the payload append.
Because each later `map_or_else` failure closure overwrites the status set
by an earlier one, `StatusInternalError` is the only failure status the
chain can produce. -/
theorem get_shapes (m : Master) (h : GetRequest) (p : List Nat)
    (r : GetRespPkt) :
    m.get h p r =
      Except.ok (m, { r with status := RpcStatus.StatusMalformedRequest }, [])
    ∨ (∃ tr : List Event, m.get h p r =
        Except.ok (m, { r with status := RpcStatus.StatusInternalError }, tr))
    ∨ (∃ (r2 : GetRespPkt) (tr : List Event), m.get h p r =
        Except.ok (m,
          { r2 with value_length := r2.payload.length % 2 ^ 32,
                    status := RpcStatus.StatusOk }, tr)) := by
  by_cases hlen : p.length < h.key_length
  · left
    simp [Master.get, hlen]
  · have hle : h.key_length ≤ p.length := Nat.le_of_not_lt hlen
    cases h1 : alGet h.tenant m.users with
    | none =>
      right; left
      refine ⟨[Event.tenantLookup h.tenant], ?_⟩
      simp [Master.get, hlen, splitAtChecked, hle, h1]
    | some user =>
      cases h2 : alGet h.table_id user.tables with
      | none =>
        right; left
        refine ⟨[Event.tenantLookup h.tenant, Event.tableLookup h.table_id], ?_⟩
        simp [Master.get, hlen, splitAtChecked, hle, h1, h2]
      | some table =>
        cases h3 : table.get (p.take h.key_length) with
        | none =>
          right; left
          refine ⟨[Event.tenantLookup h.tenant, Event.tableLookup h.table_id,
                   Event.keyLookup (p.take h.key_length)], ?_⟩
          simp [Master.get, hlen, splitAtChecked, hle, h1, h2, h3]
        | some v =>
          cases h4 : add_to_payload_tail r v with
          | none =>
            right; left
            refine ⟨[Event.tenantLookup h.tenant,
                     Event.tableLookup h.table_id,
                     Event.keyLookup (p.take h.key_length)], ?_⟩
            simp [Master.get, hlen, splitAtChecked, hle, h1, h2, h3, h4]
          | some r2 =>
            right; right
            refine ⟨r2, [Event.tenantLookup h.tenant,
                         Event.tableLookup h.table_id,
                         Event.keyLookup (p.take h.key_length)], ?_⟩
            simp [Master.get, hlen, splitAtChecked, hle, h1, h2, h3, h4]

/-- Exhaustive shape analysis of the Invoke handler: a run either panics on
UTF-8 decoding of the name, or returns `ok` with the master state
unchanged; the slicing panic is unreachable. -/
theorem invoke_shapes (m : Master) (h : InvokeRequest) (p : List Nat)
    (r : InvokeRespPkt) :
    m.invoke h p r = Except.error RpcPanic.utf8Fail
    ∨ (∃ (out : InvokeRespPkt) (tr : List Event),
        m.invoke h p r = Except.ok (m, out, tr)) := by
  by_cases hlen : p.length < h.name_length + h.args_length
  · right
    refine ⟨{ r with status := RpcStatus.StatusMalformedRequest }, [], ?_⟩
    simp [Master.invoke, hlen]
  · have hle : h.name_length ≤ p.length :=
      le_trans (Nat.le_add_right _ _) (Nat.le_of_not_lt hlen)
    by_cases hval : validUtf8 (p.take h.name_length) = true
    · cases h1 : alGet h.tenant m.users with
      | none =>
        right
        refine ⟨{ r with status := RpcStatus.StatusTenantDoesNotExist },
                [Event.tenantLookup h.tenant], ?_⟩
        simp [Master.invoke, hlen, splitAtChecked, hle, hval, h1]
      | some user =>
        right
        refine ⟨{ r with status := RpcStatus.StatusOk },
                [Event.tenantLookup h.tenant,
                 Event.extCall h.tenant (p.take h.name_length)], ?_⟩
        simp [Master.invoke, hlen, splitAtChecked, hle, hval, h1]
    · left
      simp [Master.invoke, hlen, splitAtChecked, hle]
      simp [hval]

/-- Equation lemma: a Get request whose payload is shorter than the
declared key length is answered with `StatusMalformedRequest`, with the
rest of the packet untouched and nothing looked up. -/
theorem get_malformed_eq (m : Master) (h : GetRequest) (p : List Nat)
    (r : GetRespPkt) (hlen : p.length < h.key_length) :
    m.get h p r =
      Except.ok (m, { r with status := RpcStatus.StatusMalformedRequest },
        []) := by
  simp [Master.get, hlen]

/-- Equation lemma: an Invoke request whose payload is shorter than name
length plus argument length is answered with `StatusMalformedRequest`,
with the rest of the packet untouched and nothing looked up or called. -/
theorem invoke_malformed_eq (m : Master) (h : InvokeRequest) (p : List Nat)
    (r : InvokeRespPkt)
    (hlen : p.length < h.name_length + h.args_length) :
    m.invoke h p r =
      Except.ok (m, { r with status := RpcStatus.StatusMalformedRequest },
        []) := by
  simp [Master.invoke, hlen]

/-- Equation lemma for the fully successful Get path: tenant, table and key
all resolve and the append fits, so the handler returns the appended
packet with `StatusOk` and the payload length written into the
value-length field. -/
theorem get_success_eq (m : Master) (h : GetRequest) (p : List Nat)
    (r : GetRespPkt) (user : User) (table : Table) (v : List Nat)
    (hle : h.key_length ≤ p.length)
    (h1 : alGet h.tenant m.users = some user)
    (h2 : alGet h.table_id user.tables = some table)
    (h3 : table.get (p.take h.key_length) = some v)
    (hcap : r.payload.length + v.length ≤ r.capacity) :
    m.get h p r =
      Except.ok (m,
        { value_length := (r.payload ++ v).length % 2 ^ 32,
          status := RpcStatus.StatusOk,
          payload := r.payload ++ v,
          capacity := r.capacity },
        [Event.tenantLookup h.tenant, Event.tableLookup h.table_id,
         Event.keyLookup (p.take h.key_length)]) := by
  have hlen : ¬p.length < h.key_length := Nat.not_lt.mpr hle
  simp [Master.get, hlen, splitAtChecked, hle, h1, h2, h3,
        add_to_payload_tail, hcap]

/-- Equation lemma: an Invoke request that passes the length check, whose
name bytes decode, and whose tenant is unknown is answered with
`StatusTenantDoesNotExist`; the trace shows that only the tenant lookup
ran, so no extension was called. -/
theorem invoke_no_tenant_eq (m : Master) (h : InvokeRequest) (p : List Nat)
    (r : InvokeRespPkt)
    (hle : h.name_length + h.args_length ≤ p.length)
    (hval : validUtf8 (p.take h.name_length) = true)
    (h1 : alGet h.tenant m.users = none) :
    m.invoke h p r =
      Except.ok (m,
        { r with status := RpcStatus.StatusTenantDoesNotExist },
        [Event.tenantLookup h.tenant]) := by
  have hlen : ¬p.length < h.name_length + h.args_length := Nat.not_lt.mpr hle
  have hle1 : h.name_length ≤ p.length :=
    le_trans (Nat.le_add_right _ _) hle
  simp [Master.invoke, hlen, splitAtChecked, hle1, hval, h1]

/-- Equation lemma: an Invoke request that passes the length check but
whose first name-length payload bytes are not valid UTF-8 makes the
handler panic on the `expect` of `String::from_utf8`; no response is
produced. -/
theorem invoke_utf8_panic_eq (m : Master) (h : InvokeRequest) (p : List Nat)
    (r : InvokeRespPkt)
    (hle : h.name_length + h.args_length ≤ p.length)
    (hval : validUtf8 (p.take h.name_length) = false) :
    m.invoke h p r = Except.error RpcPanic.utf8Fail := by
  have hlen : ¬p.length < h.name_length + h.args_length := Nat.not_lt.mpr hle
  have hle1 : h.name_length ≤ p.length :=
    le_trans (Nat.le_add_right _ _) hle
  simp [Master.invoke, hlen, splitAtChecked, hle1]
  simp [hval]

/-- Helper: the Get handler never changes the master state: whenever it
returns `ok`, the returned master equals the one it was given. -/
theorem get_master_eq (m : Master) (h : GetRequest) (p : List Nat)
    (r : GetRespPkt) (mr : Master) (x : GetRespPkt) (tr : List Event)
    (hEq : m.get h p r = Except.ok (mr, x, tr)) : mr = m := by
  rcases get_shapes m h p r with h' | ⟨tr', h'⟩ | ⟨r2, tr', h'⟩ <;>
    rw [h'] at hEq <;>
    (injection hEq with h9; exact (congrArg Prod.fst h9).symm)

/-- Helper: the Invoke handler never changes the master state: whenever it
returns `ok`, the returned master equals the one it was given. -/
theorem invoke_master_eq (m : Master) (h : InvokeRequest) (p : List Nat)
    (r : InvokeRespPkt) (mr : Master) (x : InvokeRespPkt) (tr : List Event)
    (hEq : m.invoke h p r = Except.ok (mr, x, tr)) : mr = m := by
  rcases invoke_shapes m h p r with h' | ⟨out, tr', h'⟩ <;>
    rw [h'] at hEq
  · cases hEq
  · injection hEq with h9
    exact (congrArg Prod.fst h9).symm

/-- C1: both handlers bounds-check the request-supplied length fields
against the actual payload length before slicing, so the `split_at` panic
branch (`RpcPanic.sliceOob`) is unreachable: the Get handler always
returns `ok`, and the Invoke handler either returns `ok` or panics on
UTF-8 decoding, never on slicing. -/
theorem C1_length_checks_make_slicing_safe :
    (∀ (m : Master) (h : GetRequest) (p : List Nat) (r : GetRespPkt),
      ∃ out, m.get h p r = Except.ok out)
    ∧ (∀ (m : Master) (h : InvokeRequest) (p : List Nat) (r : InvokeRespPkt),
      m.invoke h p r = Except.error RpcPanic.utf8Fail
      ∨ ∃ out, m.invoke h p r = Except.ok out) := by
  constructor
  · intro m h p r
    rcases get_shapes m h p r with h' | ⟨tr, h'⟩ | ⟨r2, tr, h'⟩ <;>
      exact ⟨_, h'⟩
  · intro m h p r
    rcases invoke_shapes m h p r with h' | ⟨out, tr, h'⟩
    · exact Or.inl h'
    · exact Or.inr ⟨_, h'⟩

/-- C2: a Get request that passes the length check and whose (tenant,
table, key) resolves to a stored value, served into a response packet with
an empty payload and room for the value, is answered with exactly the
stored bytes as payload, the response payload length in the value-length
field, and `StatusOk`. -/
theorem C2_get_hit_returns_stored_value (m : Master) (h : GetRequest)
    (p : List Nat) (r : GetRespPkt) (user : User) (table : Table)
    (v : List Nat)
    (hle : h.key_length ≤ p.length)
    (h1 : alGet h.tenant m.users = some user)
    (h2 : alGet h.table_id user.tables = some table)
    (h3 : table.get (p.take h.key_length) = some v)
    (hpay : r.payload = [])
    (hcap : v.length ≤ r.capacity)
    (hsmall : v.length < 2 ^ 32) :
    m.get h p r =
      Except.ok (m,
        { value_length := v.length,
          status := RpcStatus.StatusOk,
          payload := v,
          capacity := r.capacity },
        [Event.tenantLookup h.tenant, Event.tableLookup h.table_id,
         Event.keyLookup (p.take h.key_length)]) := by
  have hcap' : r.payload.length + v.length ≤ r.capacity := by
    rw [hpay]; simpa using hcap
  have := get_success_eq m h p r user table v hle h1 h2 h3 hcap'
  rw [this, hpay]
  have hsmall' : v.length < 4294967296 := by simpa using hsmall
  simp [Nat.mod_eq_of_lt hsmall']

/-- C2 witness: on the state built by `Master::new`, a Get for tenant 1,
table 1 and the provisioned 30-byte key returns the provisioned 100-byte
value with value length 100 and `StatusOk`. -/
theorem C2_get_hit_returns_stored_value_witness :
    Master.new.get { tenant := 1, table_id := 1, key_length := 30 }
      (List.replicate 30 1)
      { value_length := 0, status := RpcStatus.StatusOk, payload := [],
        capacity := 1000 } =
    Except.ok (Master.new,
      { value_length := 100,
        status := RpcStatus.StatusOk,
        payload := List.replicate 100 91,
        capacity := 1000 },
      [Event.tenantLookup 1, Event.tableLookup 1,
       Event.keyLookup (List.replicate 30 1)]) :=
  C2_get_hit_returns_stored_value Master.new
    { tenant := 1, table_id := 1, key_length := 30 }
    (List.replicate 30 1)
    { value_length := 0, status := RpcStatus.StatusOk, payload := [],
      capacity := 1000 }
    ((User.new 1).create_table 1)
    ⟨[(List.replicate 30 1, List.replicate 100 91)]⟩
    (List.replicate 100 91)
    (by decide) (by decide) (by decide) (by decide) rfl (by decide)
    (by decide)

/-- C3: evaluation at the failing input.  On the state built by
`Master::new`, a Get for the unknown tenant 2 is answered with
`StatusInternalError`, not `StatusTenantDoesNotExist`: every later
`map_or_else` failure closure runs on the propagated `none` and overwrites
the status set by the earlier one, so all lookup failures are conflated
into `StatusInternalError`, contrary to the in-code comments and the
specification. -/
theorem C3_unknown_tenant_answered_internal_error :
    Master.new.get { tenant := 2, table_id := 1, key_length := 0 } []
      { value_length := 0, status := RpcStatus.StatusOk, payload := [],
        capacity := 100 } =
    Except.ok (Master.new,
      { value_length := 0, status := RpcStatus.StatusInternalError,
        payload := ([] : List Nat), capacity := 100 },
      [Event.tenantLookup 2]) := by rfl

/-- C4: a Get request whose payload is shorter than the key length, and an
Invoke request whose payload is shorter than name length plus argument
length, are answered immediately with `StatusMalformedRequest`: the rest
of the response packet is untouched, and the empty trace shows that no
tenant, table or key lookup and no extension call happened. -/
theorem C4_malformed_requests_short_circuit :
    (∀ (m : Master) (h : GetRequest) (p : List Nat) (r : GetRespPkt),
      p.length < h.key_length →
      m.get h p r =
        Except.ok (m, { r with status := RpcStatus.StatusMalformedRequest },
          []))
    ∧ (∀ (m : Master) (h : InvokeRequest) (p : List Nat) (r : InvokeRespPkt),
      p.length < h.name_length + h.args_length →
      m.invoke h p r =
        Except.ok (m, { r with status := RpcStatus.StatusMalformedRequest },
          [])) :=
  ⟨fun m h p r hlen => get_malformed_eq m h p r hlen,
   fun m h p r hlen => invoke_malformed_eq m h p r hlen⟩

/-- C4 witness: a Get with an empty payload but declared key length 5, and
an Invoke with a 1-byte payload but declared name length 3 and argument
length 2, are both answered with `StatusMalformedRequest` and an empty
trace. -/
theorem C4_malformed_requests_short_circuit_witness :
    Master.new.get { tenant := 1, table_id := 1, key_length := 5 } []
      { value_length := 0, status := RpcStatus.StatusOk, payload := [],
        capacity := 100 } =
      Except.ok (Master.new,
        { value_length := 0, status := RpcStatus.StatusMalformedRequest,
          payload := ([] : List Nat), capacity := 100 }, [])
    ∧ Master.new.invoke { tenant := 1, name_length := 3, args_length := 2 }
      [7] { status := RpcStatus.StatusOk, payload := [] } =
      Except.ok (Master.new,
        { status := RpcStatus.StatusMalformedRequest,
          payload := ([] : List Nat) }, []) :=
  ⟨C4_malformed_requests_short_circuit.1 Master.new
      { tenant := 1, table_id := 1, key_length := 5 } []
      { value_length := 0, status := RpcStatus.StatusOk, payload := [],
        capacity := 100 } (by decide),
   C4_malformed_requests_short_circuit.2 Master.new
      { tenant := 1, name_length := 3, args_length := 2 } [7]
      { status := RpcStatus.StatusOk, payload := [] } (by decide)⟩

/-- C5 counterexample: an Invoke request from the unknown tenant 5 that
passes the length check (payload length 1, name length 1, argument length
0) but whose name byte 200 is not valid UTF-8 makes the handler panic on
decoding before it ever reaches the tenant check, so no
`StatusTenantDoesNotExist` response is produced; the claim as stated fails
at this input. -/
theorem C5_counterexample_utf8_panic_preempts_tenant_check :
    Master.new.invoke { tenant := 5, name_length := 1, args_length := 0 }
      [200] { status := RpcStatus.StatusOk, payload := [] } =
    Except.error RpcPanic.utf8Fail := by rfl

/-- C5 (amended): an Invoke request that passes the length check, whose
first name-length payload bytes are valid UTF-8, and whose tenant id is
not in the registry, is answered with `StatusTenantDoesNotExist`; the
trace holds only the tenant lookup, so the extension manager is never
called and no extension executes. -/
theorem C5_unknown_tenant_no_extension_call (m : Master)
    (h : InvokeRequest) (p : List Nat) (r : InvokeRespPkt)
    (hle : h.name_length + h.args_length ≤ p.length)
    (hval : validUtf8 (p.take h.name_length) = true)
    (h1 : alGet h.tenant m.users = none) :
    m.invoke h p r =
      Except.ok (m,
        { r with status := RpcStatus.StatusTenantDoesNotExist },
        [Event.tenantLookup h.tenant])
    ∧ ∀ (t : Nat) (n : List Nat),
        Event.extCall t n ∉ [Event.tenantLookup h.tenant] :=
  ⟨invoke_no_tenant_eq m h p r hle hval h1, by simp⟩

/-- C5 witness: an Invoke from the unknown tenant 5 with the valid one-byte
UTF-8 name 103 is answered with `StatusTenantDoesNotExist` and a trace
holding only the tenant lookup. -/
theorem C5_unknown_tenant_no_extension_call_witness :
    Master.new.invoke { tenant := 5, name_length := 1, args_length := 0 }
      [103] { status := RpcStatus.StatusOk, payload := [] } =
      Except.ok (Master.new,
        { status := RpcStatus.StatusTenantDoesNotExist,
          payload := ([] : List Nat) },
        [Event.tenantLookup 5])
    ∧ ∀ (t : Nat) (n : List Nat),
        Event.extCall t n ∉ [Event.tenantLookup 5] :=
  C5_unknown_tenant_no_extension_call Master.new
    { tenant := 5, name_length := 1, args_length := 0 } [103]
    { status := RpcStatus.StatusOk, payload := [] }
    (by decide) (by decide) (by decide)

/-- C6: a request whose opcode is neither Get nor Invoke
(`OpCode.InvalidOperation`) makes dispatch return the request and response
buffers exactly as received: no response header is pushed, no status is
written, the trace is empty, and both packets are equal to their
pre-dispatch transport-header-boundary state. -/
theorem C6_invalid_opcode_returns_buffers_unmodified (m : Master)
    (request : UdpReq) (respons : UdpResp)
    (hop : parse_rpc_opcode request = OpCode.InvalidOperation) :
    m.dispatch request respons =
      Except.ok
        { master := m, request := request, respons := respons,
          trace := [] } := by
  cases hk : request.kind with
  | getReq g => simp [parse_rpc_opcode, hk] at hop
  | invokeReq g => simp [parse_rpc_opcode, hk] at hop
  | invalid => simp [Master.dispatch, hk]

/-- C6 witness: dispatching a concrete unrecognised-opcode request returns
both concrete buffers unchanged. -/
theorem C6_invalid_opcode_returns_buffers_unmodified_witness :
    Master.new.dispatch { kind := ReqKind.invalid, payload := [4, 5] }
      { pushed := [], payload := [], capacity := 64 } =
      Except.ok
        { master := Master.new,
          request := { kind := ReqKind.invalid, payload := [4, 5] },
          respons := { pushed := [], payload := [], capacity := 64 },
          trace := [] } :=
  C6_invalid_opcode_returns_buffers_unmodified Master.new
    { kind := ReqKind.invalid, payload := [4, 5] }
    { pushed := [], payload := [], capacity := 64 } rfl

/-- C7: an Invoke request that passes the length check but whose first
name-length payload bytes are not valid UTF-8 aborts fatally on the
`expect` of `String::from_utf8` instead of returning a recoverable status:
the handler ends in the panic value `RpcPanic.utf8Fail` and no status is
written to any response. -/
theorem C7_invalid_utf8_name_is_fatal (m : Master) (h : InvokeRequest)
    (p : List Nat) (r : InvokeRespPkt)
    (hle : h.name_length + h.args_length ≤ p.length)
    (hval : validUtf8 (p.take h.name_length) = false) :
    m.invoke h p r = Except.error RpcPanic.utf8Fail :=
  invoke_utf8_panic_eq m h p r hle hval

/-- C7 witness: an Invoke whose one name byte is 255 (never valid UTF-8)
panics on decoding. -/
theorem C7_invalid_utf8_name_is_fatal_witness :
    Master.new.invoke { tenant := 1, name_length := 1, args_length := 0 }
      [255] { status := RpcStatus.StatusOk, payload := [] } =
    Except.error RpcPanic.utf8Fail :=
  C7_invalid_utf8_name_is_fatal Master.new
    { tenant := 1, name_length := 1, args_length := 0 } [255]
    { status := RpcStatus.StatusOk, payload := [] }
    (by decide) (by decide)

/-- C8: storing a value under a key and reading that key back yields
exactly the stored bytes, for any prior table contents: put followed by
get round-trips, and put overwrites any value previously stored under the
same key. -/
theorem C8_put_then_get_round_trip (t : Table) (k v : List Nat) :
    (t.put k v).get k = some v := by
  simp [Table.put, Table.get, alPut, alGet]

/-- C9: dispatch never changes the master state: whenever it returns, the
master in the result is the one it was given, for every opcode and every
pair of buffers.  The users map, the nested tables and the loaded
extensions are written only by the provisioning-time operations
(`Master::new`, `User::create_table`, `ExtensionManager::load`). -/
theorem C9_dispatch_leaves_state_unchanged (m : Master) (request : UdpReq)
    (respons : UdpResp) (out : DispatchResult)
    (hd : m.dispatch request respons = Except.ok out) :
    out.master = m := by
  cases hk : request.kind with
  | getReq g =>
    simp only [Master.dispatch, hk] at hd
    cases hg : m.get g request.payload
        { value_length := GetResponse.new.1, status := GetResponse.new.2,
          payload := respons.payload, capacity := respons.capacity } with
    | error e => rw [hg] at hd; cases hd
    | ok res =>
      obtain ⟨mr, x, tr⟩ := res
      rw [hg] at hd
      injection hd with h9
      rw [← h9]
      exact get_master_eq m g request.payload _ mr x tr hg
  | invokeReq g =>
    simp only [Master.dispatch, hk] at hd
    cases hg : m.invoke g request.payload
        { status := InvokeResponse.new, payload := respons.payload } with
    | error e => rw [hg] at hd; cases hd
    | ok res =>
      obtain ⟨mr, x, tr⟩ := res
      rw [hg] at hd
      injection hd with h9
      rw [← h9]
      exact invoke_master_eq m g request.payload _ mr x tr hg
  | invalid =>
    simp only [Master.dispatch, hk] at hd
    injection hd with h9
    rw [← h9]

/-- C9 witness: dispatching a concrete successful Get request leaves the
state built by `Master::new` unchanged in the result. -/
theorem C9_dispatch_leaves_state_unchanged_witness :
    ({ master := Master.new,
       request := { kind := ReqKind.getReq
                      { tenant := 1, table_id := 1, key_length := 30 },
                    payload := List.replicate 30 1 },
       respons := { pushed := [PushedHdr.getHdr 100 RpcStatus.StatusOk],
                    payload := List.replicate 100 91, capacity := 1000 },
       trace := [Event.tenantLookup 1, Event.tableLookup 1,
                 Event.keyLookup (List.replicate 30 1)] } :
      DispatchResult).master = Master.new :=
  C9_dispatch_leaves_state_unchanged Master.new
    { kind := ReqKind.getReq { tenant := 1, table_id := 1, key_length := 30 },
      payload := List.replicate 30 1 }
    { pushed := [], payload := [], capacity := 1000 }
    _ (by rfl)

/-- C10: a Get request answered with `StatusMalformedRequest`,
`StatusTenantDoesNotExist`, `StatusTableDoesNotExist` or
`StatusObjectDoesNotExist` has only the status field of its response
header modified: the value-length field, the response payload and the
remaining capacity are exactly as they were when the header was pushed,
and no bytes were appended. -/
theorem C10_error_statuses_modify_only_status (m : Master)
    (h : GetRequest) (p : List Nat) (r : GetRespPkt) (mr : Master)
    (out : GetRespPkt) (tr : List Event)
    (hEq : m.get h p r = Except.ok (mr, out, tr))
    (hst : out.status = RpcStatus.StatusMalformedRequest
      ∨ out.status = RpcStatus.StatusTenantDoesNotExist
      ∨ out.status = RpcStatus.StatusTableDoesNotExist
      ∨ out.status = RpcStatus.StatusObjectDoesNotExist) :
    out.value_length = r.value_length ∧ out.payload = r.payload
      ∧ out.capacity = r.capacity := by
  rcases get_shapes m h p r with h' | ⟨tr', h'⟩ | ⟨r2, tr', h'⟩ <;>
    rw [h'] at hEq <;>
    simp only [Except.ok.injEq, Prod.mk.injEq] at hEq <;>
    obtain ⟨hm, hout, htr⟩ := hEq
  · rw [← hout]
    exact ⟨rfl, rfl, rfl⟩
  · rw [← hout]
    exact ⟨rfl, rfl, rfl⟩
  · rw [← hout] at hst
    rcases hst with hc | hc | hc | hc <;> simp at hc

/-- C10 witness: a malformed Get against a response packet that already
holds value length 7 and payload bytes 1, 2 keeps both exactly, changing
only the status. -/
theorem C10_error_statuses_modify_only_status_witness :
    ({ value_length := 7, status := RpcStatus.StatusMalformedRequest,
       payload := [1, 2], capacity := 9 } : GetRespPkt).value_length =
      ({ value_length := 7, status := RpcStatus.StatusOk,
         payload := [1, 2], capacity := 9 } : GetRespPkt).value_length
    ∧ ({ value_length := 7, status := RpcStatus.StatusMalformedRequest,
         payload := [1, 2], capacity := 9 } : GetRespPkt).payload =
      ({ value_length := 7, status := RpcStatus.StatusOk,
         payload := [1, 2], capacity := 9 } : GetRespPkt).payload
    ∧ ({ value_length := 7, status := RpcStatus.StatusMalformedRequest,
         payload := [1, 2], capacity := 9 } : GetRespPkt).capacity =
      ({ value_length := 7, status := RpcStatus.StatusOk,
         payload := [1, 2], capacity := 9 } : GetRespPkt).capacity :=
  C10_error_statuses_modify_only_status Master.new
    { tenant := 1, table_id := 1, key_length := 5 } []
    { value_length := 7, status := RpcStatus.StatusOk, payload := [1, 2],
      capacity := 9 }
    Master.new
    { value_length := 7, status := RpcStatus.StatusMalformedRequest,
      payload := [1, 2], capacity := 9 }
    [] (by rfl) (Or.inl rfl)

end Kayak
